import Mathlib

/-!
Verification development for the fancy-mini repository.

Part 1 embeds `src/lib/decorator/noConcurrent.js`: the mutex coordinator
(`_noConcurrentTplt`) with its three policies (discard / merge / wait) and the
lock-release routine `handleRunFinish`, as a small-step state machine over the
single-threaded cooperative scheduling model the code relies on.

Part 2 embeds `src/lib/navigate/Navigator.js`: the retry policy of
`_secretOpen`, the curtain insertion of `navigateTo`, the back-navigation
resolver `_doBack`, the restore hooks, and the page-unload routing.
The `History` store the Navigator drives is not part of the sources; its
operations are modelled from the spec where needed (doc comments say so).
-/

namespace NoConcurrent

/-- The three concurrency policies of `makeNoConcurrent` / `makeMutex`
(`mode` parameter of `_noConcurrentTplt`). -/
inductive Mode
  | discard
  | merge
  | wait
deriving DecidableEq, Repr

/-- One entry of `statusControl.listeners`: `block` is the JS `block` field
(`false` for merge-mode waiters, `true` for wait-mode waiters); `caller`
identifies the suspended caller whose `resolve` is the JS `handler`. -/
structure Listener where
  block : Bool
  caller : Nat
deriving DecidableEq, Repr

/-- Result of one run of the `while` loop of `handleRunFinish`:
which handlers were called (each with the just-finished result), which
blocking listener (if any) took over, and the remaining queue. -/
structure DrainOut (α : Type) where
  settled : List (Nat × α)
  takeover : Option Nat
  rem : List Listener
deriving DecidableEq, Repr

/-- The `while (statusControl.listeners.length > 0)` loop of
`handleRunFinish` (noConcurrent.js lines 188-201): pop the front listener,
call its handler with the finished result `res`; if it is blocking, return
immediately (the listener takes over); otherwise keep draining. -/
def drain {α : Type} (res : α) : List Listener → DrainOut α
  | [] => ⟨[], none, []⟩
  | l :: rest =>
    if l.block then ⟨[(l.caller, res)], some l.caller, rest⟩
    else
      let d := drain res rest
      ⟨(l.caller, res) :: d.settled, d.takeover, d.rem⟩

/-- Global state of one lock (`statusControl`) together with the observables
of an execution: which callers' wrapped-function invocations have started
(`invocations`, in start order), how many invocations are currently in
flight, which waiters have been settled with which value, and which callers
were discarded. -/
structure World (α : Type) where
  running : Bool
  listeners : List Listener
  invocations : List Nat
  inFlight : Nat
  settled : List (Nat × α)
  discards : List Nat
deriving DecidableEq, Repr

/-- Scheduler events: a caller arrives at the wrapped function, or the
currently active invocation of the wrapped function settles with value
`res` (a value of type `α`; instantiating `α` with `Except` covers both
fulfilment and rejection, since the JS code funnels both the `.then` and
the `.catch` path into the same `handleRunFinish(res)`). -/
inductive Event (α : Type)
  | arrive (caller : Nat)
  | finish (res : α)
deriving DecidableEq, Repr

/-- One step of the cooperative scheduler, mirroring the wrapped function
body of `_noConcurrentTplt` (lines 158-220). Results are `Except` values:
`handleRunFinish(res)` receives the finished invocation's `res` Promise on
both the `.then` and the `.catch` path (lines 207-213), and each drained
listener's `handler` is a waiter's `resolve`, so the waiter's promise
adopts `res`'s state.
* `arrive` with the lock free: `running := true` and the wrapped function
  is invoked (`oriFunc.apply`), one more invocation in flight;
* `arrive` with the lock held: discard-mode returns `discardRes`,
  merge-mode enqueues a non-blocking listener, wait-mode enqueues a
  blocking listener;
* `finish` with a fulfilled result: `handleRunFinish` drains the queue; if
  a blocking listener was drained it takes over (the lock flag is left
  untouched and the resumed wait-mode caller invokes the wrapped
  function), otherwise `running := false`;
* `finish` with a rejection, drained down to a blocking listener: the
  resumed wait-mode caller's bare `await` (line 174) throws on the adopted
  rejection, so it rejects without reaching lines 180/204-205 — it never
  invokes the wrapped operation and never runs `handleRunFinish` again:
  nothing is in flight anymore, the lock flag stays set and the remaining
  listeners stay queued. -/
def step {E V : Type} (mode : Mode) (w : World (Except E V)) :
    Event (Except E V) → World (Except E V)
  | .arrive c =>
    if w.running then
      match mode with
      | .discard => {w with discards := w.discards ++ [c]}
      | .merge => {w with listeners := w.listeners ++ [Listener.mk false c]}
      | .wait => {w with listeners := w.listeners ++ [Listener.mk true c]}
    else
      {w with running := true, invocations := w.invocations ++ [c],
              inFlight := w.inFlight + 1}
  | .finish r =>
    if w.inFlight = 0 then w
    else
      let d := drain r w.listeners
      match d.takeover with
      | some c =>
        match r with
        | .ok _ =>
          { running := w.running, listeners := d.rem,
            invocations := w.invocations ++ [c], inFlight := w.inFlight,
            settled := w.settled ++ d.settled, discards := w.discards }
        | .error _ =>
          { running := w.running, listeners := d.rem,
            invocations := w.invocations, inFlight := w.inFlight - 1,
            settled := w.settled ++ d.settled, discards := w.discards }
      | none =>
        { running := false, listeners := d.rem,
          invocations := w.invocations, inFlight := w.inFlight - 1,
          settled := w.settled ++ d.settled, discards := w.discards }

/-- Run a sequence of scheduler events. -/
def run {E V : Type} (mode : Mode) (w : World (Except E V))
    (evs : List (Event (Except E V))) : World (Except E V) :=
  List.foldl (step mode) w evs

/-- Fresh lock state: `running: false, listeners: []`. -/
def idle (α : Type) : World α :=
  ⟨false, [], [], 0, [], []⟩

/-- Lock state while one invocation (started by caller `c0`) is in flight
and nobody is queued yet. -/
def oneRunning (α : Type) (c0 : Nat) : World α :=
  ⟨true, [], [c0], 1, [], []⟩

theorem run_nil {E V : Type} (mode : Mode) (w : World (Except E V)) :
    run mode w [] = w := rfl

theorem run_append {E V : Type} (mode : Mode) (w : World (Except E V))
    (p q : List (Event (Except E V))) :
    run mode w (p ++ q) = run mode (run mode w p) q := by
  simp [run, List.foldl_append]

theorem step_arrive_merge {E V : Type} (w : World (Except E V)) (c : Nat)
    (h : w.running = true) :
    step Mode.merge w (Event.arrive c) =
      {w with listeners := w.listeners ++ [Listener.mk false c]} := by
  simp [step, h]

theorem step_arrive_wait {E V : Type} (w : World (Except E V)) (c : Nat)
    (h : w.running = true) :
    step Mode.wait w (Event.arrive c) =
      {w with listeners := w.listeners ++ [Listener.mk true c]} := by
  simp [step, h]

theorem run_arrive_merge {E V : Type} (cs : List Nat) (w : World (Except E V))
    (h : w.running = true) :
    run Mode.merge w (cs.map Event.arrive) =
      {w with listeners := w.listeners ++ cs.map fun c => Listener.mk false c} := by
  induction cs generalizing w with
  | nil => cases w; simp [run]
  | cons c cs ih =>
    have hrun : run Mode.merge w ((c :: cs).map Event.arrive) =
        run Mode.merge (step Mode.merge w (Event.arrive c)) (cs.map Event.arrive) := rfl
    rw [hrun, step_arrive_merge w c h, ih _ (by simp [h])]
    simp

theorem run_arrive_wait {E V : Type} (cs : List Nat) (w : World (Except E V))
    (h : w.running = true) :
    run Mode.wait w (cs.map Event.arrive) =
      {w with listeners := w.listeners ++ cs.map fun c => Listener.mk true c} := by
  induction cs generalizing w with
  | nil => cases w; simp [run]
  | cons c cs ih =>
    have hrun : run Mode.wait w ((c :: cs).map Event.arrive) =
        run Mode.wait (step Mode.wait w (Event.arrive c)) (cs.map Event.arrive) := rfl
    rw [hrun, step_arrive_wait w c h, ih _ (by simp [h])]
    simp

theorem drain_nonblock {α : Type} (r : α) (cs : List Nat) :
    drain r (cs.map fun c => Listener.mk false c) =
      ⟨cs.map fun c => (c, r), none, []⟩ := by
  induction cs with
  | nil => rfl
  | cons c cs ih => simp [drain, ih]

/-- Claim C1: merge-mode mutex. With one invocation (started by `c0`) in
flight, `cs` further callers arrive under merge mode and then the in-flight
invocation settles with `r` (either `Except.ok` or `Except.error`, covering
the rejection case). Afterwards: the wrapped operation was invoked exactly
once (`invocations = [c0]`), every one of the `cs` waiters was settled with
that single invocation's exact settled value `r`, no caller was discarded,
the listener queue is empty and the lock is not left held. -/
theorem merge_mode_mutex (E V : Type) (c0 : Nat) (cs : List Nat) (r : Except E V) :
    run Mode.merge (oneRunning (Except E V) c0)
        (cs.map Event.arrive ++ [Event.finish r]) =
      ⟨false, [], [c0], 0, cs.map fun c => (c, r), []⟩ := by
  rw [run_append, run_arrive_merge cs (oneRunning (Except E V) c0) rfl]
  simp only [run, List.foldl_cons, List.foldl_nil]
  simp [oneRunning, step, drain_nonblock]

theorem drain_none_rem {α : Type} (r : α) (ls : List Listener)
    (h : (drain r ls).takeover = none) : (drain r ls).rem = [] := by
  induction ls with
  | nil => rfl
  | cons l rest ih =>
    by_cases hb : l.block
    · simp [drain, hb] at h
    · simp [drain, hb] at h ⊢
      exact ih h

/-- Claim C2 (code bug evaluated at the failing input): three concurrent
wait-mode callers 0, 1 and 2 arrive, then caller 0's invocation rejects.
The drain settles waiter 1 with the adopted rejection; waiter 1's `await`
therefore throws — it never invokes the wrapped operation — and waiter 2
stays queued behind a lock that is never released: only one invocation of
the wrapped operation ever occurs instead of the claimed three, and every
further completion event leaves the stuck state unchanged (deadlock). -/
theorem wait_mode_rejection_deadlock :
    run Mode.wait (idle (Except String Nat))
        ([Event.arrive 0, Event.arrive 1, Event.arrive 2]
          ++ [Event.finish (Except.error "boom")])
      = ⟨true, [Listener.mk true 2], [0], 0, [(1, Except.error "boom")], []⟩ ∧
    (∀ r2 : Except String Nat,
      step Mode.wait
        (⟨true, [Listener.mk true 2], [0], 0, [(1, Except.error "boom")], []⟩ :
          World (Except String Nat))
        (Event.finish r2)
      = ⟨true, [Listener.mk true 2], [0], 0, [(1, Except.error "boom")], []⟩) :=
  ⟨rfl, fun _ => rfl⟩

/-- Closed form of the drain loop: the longest non-blocking prefix of the
queue is settled in FIFO order, then the first blocking listener (if any) is
settled and takes over; everything after it stays queued. -/
theorem drain_eq {α : Type} (r : α) (ls : List Listener) :
    drain r ls =
      ⟨((ls.takeWhile fun l => !l.block) ++ (ls.dropWhile fun l => !l.block).take 1).map
          fun l => (l.caller, r),
       ((ls.dropWhile fun l => !l.block).head?).map Listener.caller,
       (ls.dropWhile fun l => !l.block).drop 1⟩ := by
  induction ls with
  | nil => rfl
  | cons l rest ih =>
    by_cases hb : l.block
    · simp [drain, hb, List.takeWhile_cons, List.dropWhile_cons]
    · simp [drain, hb, List.takeWhile_cons, List.dropWhile_cons, ih]

theorem drain_settled_val {α : Type} (r : α) (ls : List Listener) (p : Nat × α)
    (h : p ∈ (drain r ls).settled) : p.2 = r := by
  induction ls with
  | nil => simp [drain] at h
  | cons l rest ih =>
    by_cases hb : l.block
    · simp [drain, hb] at h
      simp [h]
    · simp [drain, hb] at h
      rcases h with h | h
      · simp [h]
      · exact ih h

/-- Lock state with one invocation in flight, queue `ls` and invocation
history `inv`. -/
def activeWorld (α : Type) (ls : List Listener) (inv : List Nat) : World α :=
  ⟨true, ls, inv, 1, [], []⟩

/-- Claim C3 (code bug evaluated at the failing input): the active
invocation (of caller 1) rejects over the queue
[merge waiter 5, wait waiter 6, merge waiter 7]. The drain does deliver
the just-finished rejection FIFO to waiter 5 and to the blocking waiter 6,
and does stop at the blocking waiter leaving the lock held — but waiter 6,
whose `await` throws on the adopted rejection, never invokes the wrapped
operation (the invocation order stays `[1]`) and never performs the next
drain: merge waiter 7 is stranded in the queue and every further
completion event leaves the stuck state unchanged, against the claimed
success-identical release where the drained blocking listener takes over
and its own completion drains the rest. -/
theorem mutex_rejection_strands_queue :
    step Mode.wait
        (activeWorld (Except String Nat)
          [Listener.mk false 5, Listener.mk true 6, Listener.mk false 7] [1])
        (Event.finish (Except.error "boom"))
      = ⟨true, [Listener.mk false 7], [1], 0,
         [(5, Except.error "boom"), (6, Except.error "boom")], []⟩ ∧
    (∀ r2 : Except String Nat,
      step Mode.wait
        (⟨true, [Listener.mk false 7], [1], 0,
          [(5, Except.error "boom"), (6, Except.error "boom")], []⟩ :
            World (Except String Nat))
        (Event.finish r2)
      = ⟨true, [Listener.mk false 7], [1], 0,
         [(5, Except.error "boom"), (6, Except.error "boom")], []⟩) :=
  ⟨rfl, fun _ => rfl⟩

end NoConcurrent

namespace Nav

/-- `beginsWith pat s`: `s` starts with the character sequence `pat`. -/
def beginsWith : List Char → List Char → Bool
  | [], _ => true
  | _ :: _, [] => false
  | p :: ps, c :: cs => p == c && beginsWith ps cs

/-- `containsSeq pat s`: `pat` occurs as a contiguous subsequence of `s`
(the semantics of JS `String.prototype.includes`). -/
def containsSeq (pat : List Char) : List Char → Bool
  | [] => beginsWith pat []
  | c :: cs => beginsWith pat (c :: cs) || containsSeq pat cs

/-- `openRes.errMsg.includes('limit exceed')` of `_secretOpen`
(Navigator.js line 291). -/
def limitExceedMsg (s : String) : Bool :=
  containsSeq "limit exceed".toList s.toList

/-- `NAV_BUSY_REMAIN` (Navigator.js line 8): base settle / retry delay in
milliseconds; also the default `retryAfter` of `_secretOpen`. -/
def NAV_BUSY_REMAIN : Nat := 300

/-- Default `retryTimeout` of `_secretOpen` (Navigator.js line 280). -/
def RETRY_TIMEOUT : Nat := 2000

/-- Settled value of `wxResolve.navigateTo`: `{succeeded, errMsg}`. -/
structure OpenRes where
  succeeded : Bool
  errMsg : String
deriving DecidableEq, Repr

/-- How one call of `_secretOpen` ends: the page opened, it fell back to
`_secretReplace` of the top page, or it threw the failed result. `starved`
is a modelling artifact for an oracle that provides fewer platform
responses than the retry loop consumes; no claim relies on it. -/
inductive OpenOutcome
  | opened
  | replaced
  | threw (res : OpenRes)
  | starved
deriving DecidableEq, Repr

/-- `_secretOpen` (Navigator.js lines 280-310), driven by an oracle list of
platform responses, one per attempt. Returns the outcome and the list of
inter-attempt retry delays, in order. On success it returns (the settle
delay `NAV_BUSY_REMAIN` after success is not a retry delay and is not
recorded). On a failure whose message contains `limit exceed`: if the
observed physical stack length is at or above `MAX_LEVEL` it falls back to
replacing the top page; otherwise, while `retryAfter < retryTimeout`, it
waits `retryAfter` ms and retries with the delay doubled; else it throws
the failed result. Any other failure is thrown immediately. -/
def secretOpen (maxLevel stackLen : Nat) (retryAfter retryTimeout : Nat) :
    List OpenRes → OpenOutcome × List Nat
  | [] => (OpenOutcome.starved, [])
  | r :: rest =>
    if r.succeeded then (OpenOutcome.opened, [])
    else if limitExceedMsg r.errMsg then
      if maxLevel ≤ stackLen then (OpenOutcome.replaced, [])
      else if retryAfter < retryTimeout then
        let o := secretOpen maxLevel stackLen (retryAfter * 2) retryTimeout rest
        (o.1, retryAfter :: o.2)
      else (OpenOutcome.threw r, [])
    else (OpenOutcome.threw r, [])

/-- Claim C4: open retry policy of `_secretOpen` with the default
parameters (`retryAfter = 300`, `retryTimeout = 2000`).
(a) A `limit exceed` failure while the observed stack is at or above the
cap falls back to a physical replace of the top page, with no retry delay.
(b) Under the cap, `limit exceed` failures are retried with delays
300, 600, 1200 ms (doubling), and the fourth failure is thrown to the
caller because the next delay (2400 ms) would exceed the 2000 ms ceiling.
(c) A failure whose message is not a limit-exceed error is thrown
immediately, with no retry. -/
theorem open_retry_policy :
    (∀ (maxLevel stackLen : Nat) (r : OpenRes) (rest : List OpenRes),
      r.succeeded = false → limitExceedMsg r.errMsg = true → maxLevel ≤ stackLen →
      secretOpen maxLevel stackLen NAV_BUSY_REMAIN RETRY_TIMEOUT (r :: rest)
        = (OpenOutcome.replaced, [])) ∧
    (∀ (maxLevel stackLen : Nat) (r1 r2 r3 r4 : OpenRes) (rest : List OpenRes),
      (∀ r ∈ [r1, r2, r3, r4], r.succeeded = false ∧ limitExceedMsg r.errMsg = true) →
      stackLen < maxLevel →
      secretOpen maxLevel stackLen NAV_BUSY_REMAIN RETRY_TIMEOUT (r1 :: r2 :: r3 :: r4 :: rest)
        = (OpenOutcome.threw r4, [300, 600, 1200])) ∧
    (∀ (maxLevel stackLen : Nat) (r : OpenRes) (rest : List OpenRes),
      r.succeeded = false → limitExceedMsg r.errMsg = false →
      secretOpen maxLevel stackLen NAV_BUSY_REMAIN RETRY_TIMEOUT (r :: rest)
        = (OpenOutcome.threw r, [])) := by
  refine ⟨?_, ?_, ?_⟩
  · intro maxLevel stackLen r rest hs hm hle
    simp [secretOpen, hs, hm, hle]
  · intro maxLevel stackLen r1 r2 r3 r4 rest hall hlt
    obtain ⟨h1, h2, h3, h4⟩ :
        (r1.succeeded = false ∧ limitExceedMsg r1.errMsg = true) ∧
        (r2.succeeded = false ∧ limitExceedMsg r2.errMsg = true) ∧
        (r3.succeeded = false ∧ limitExceedMsg r3.errMsg = true) ∧
        (r4.succeeded = false ∧ limitExceedMsg r4.errMsg = true) := by
      refine ⟨hall r1 ?_, hall r2 ?_, hall r3 ?_, hall r4 ?_⟩ <;> simp
    have hnle : ¬ maxLevel ≤ stackLen := Nat.not_le.mpr hlt
    simp [secretOpen, NAV_BUSY_REMAIN, RETRY_TIMEOUT, h1.1, h1.2, h2.1, h2.2, h3.1, h3.2,
      h4.1, h4.2, hnle]
  · intro maxLevel stackLen r rest hs hm
    simp [secretOpen, hs, hm]

/-- Witness for claim C4: a platform that misreports the layer limit four
times at stack depth 5 of cap 10 leads to delays 300, 600, 1200 and a
thrown failure; the same failure at depth 10 falls back to replace; a
non-limit failure is thrown at once. -/
theorem open_retry_policy_witness :
    secretOpen 10 10 NAV_BUSY_REMAIN RETRY_TIMEOUT
        [OpenRes.mk false "navigateTo:fail webview count limit exceed"]
      = (OpenOutcome.replaced, []) ∧
    secretOpen 10 5 NAV_BUSY_REMAIN RETRY_TIMEOUT
        [OpenRes.mk false "navigateTo:fail webview count limit exceed",
         OpenRes.mk false "navigateTo:fail webview count limit exceed",
         OpenRes.mk false "navigateTo:fail webview count limit exceed",
         OpenRes.mk false "navigateTo:fail webview count limit exceed"]
      = (OpenOutcome.threw (OpenRes.mk false "navigateTo:fail webview count limit exceed"),
         [300, 600, 1200]) ∧
    secretOpen 10 5 NAV_BUSY_REMAIN RETRY_TIMEOUT
        [OpenRes.mk false "navigateTo:fail url not in app.json"]
      = (OpenOutcome.threw (OpenRes.mk false "navigateTo:fail url not in app.json"), []) := by
  refine ⟨?_, ?_, ?_⟩
  · exact open_retry_policy.1 10 10 _ [] rfl (by decide) (by decide)
  · exact open_retry_policy.2.1 10 5 _ _ _ _ [] (by decide) (by decide)
  · exact open_retry_policy.2.2 10 5 _ [] rfl (by decide)

/-- A logical history entry. Modelled from the spec: `Route` is
`{url, tainted, savedPage}`; `savedPage` is an opaque snapshot payload
(represented here by the saved physical page's url). -/
structure Route where
  url : String
  tainted : Bool
  savedPage : Option String
deriving DecidableEq, Repr

/-- Modelled from the spec (History.js is not among the sources):
`History.open` appends a new logical entry; snapshot bookkeeping near the
correction level does not change the sequence of urls or the length and is
carried by `historySavePage` below, which the Navigator calls explicitly. -/
def historyOpen (h : List Route) (url : String) : List Route :=
  h ++ [Route.mk url false none]

/-- Modelled from the spec: `History.replace` overwrites the top logical
entry with a new one; the length does not change. -/
def historyReplace (h : List Route) (url : String) : List Route :=
  h.dropLast ++ [Route.mk url false none]

/-- Modelled from the spec: `History.savePage(index, page)` records a
snapshot at a logical index if it is in range; out-of-range indices are
ignored. -/
def historySavePage (h : List Route) (idx : Nat) (snap : String) : List Route :=
  if hidx : idx < h.length then
    h.set idx {h.get ⟨idx, hidx⟩ with savedPage := some snap}
  else h

/-- Modelled from the spec: `History.back({delta})` pops `delta` entries
(minimum 1, never popping past index 0) and returns the new history
together with the new top entry, the back-navigation target. -/
def historyBack (h : List Route) (delta : Nat) : List Route × Route :=
  let keep := max (h.length - max delta 1) 1
  let h2 := h.take keep
  (h2, h2.getLastD (Route.mk "" false none))

/-- The result `{succeeded}` of a `pageRestoreHandler` call; the handler
may also return nothing (`none` at the call site). -/
structure RestoreRes where
  succeeded : Bool
deriving DecidableEq, Repr

/-- `Navigator._config` (Navigator.js lines 29-40), restricted to the
fields the claims exercise. `pageRestoreHandler` takes the route and the
context string and returns `some` result or `none` (JS `undefined`). -/
structure Config where
  enableCurtain : Bool
  curtainPage : String
  enableTaintedRestore : Bool
  pageRestoreHandler : Option (Route → String → Option RestoreRes)
  maxLevel : Nat

/-- Observable physical/external operations issued by the Navigator, in
program order: a `History.savePage` call, a physical replace
(`_secretReplace`, `forced` marks the `_forcedRefresh` extra param), a
physical open (`_secretOpen`), a physical back of `delta` layers
(`_secretBack`), and a `pageRestoreHandler` invocation with its context. -/
inductive NavOp
  | savePage (idx : Nat)
  | physReplace (url : String) (forced : Bool)
  | physOpen (url : String) (forced : Bool)
  | physBack (delta : Nat)
  | restoreCall (url : String) (ctx : String)
deriving DecidableEq, Repr

/-- Navigator state: the logical history and the observed physical stack
(urls, newest last). -/
structure NavState where
  history : List Route
  phys : List String
deriving DecidableEq, Repr

/-- `_secretReplace` on the success path: replaces the top physical page. -/
def secretReplaceM (s : NavState) (url : String) (forced : Bool) :
    NavState × List NavOp :=
  (⟨s.history, s.phys.dropLast ++ [url]⟩, [NavOp.physReplace url forced])

/-- `_secretOpen` on the success path: pushes a new physical page. -/
def secretOpenM (s : NavState) (url : String) (forced : Bool) :
    NavState × List NavOp :=
  (⟨s.history, s.phys ++ [url]⟩, [NavOp.physOpen url forced])

/-- `Navigator.navigateTo` (Navigator.js lines 83-103) on the success path
(route urls are taken as already resolved; `toAbsolutePath` is an external
url utility). The logical history is opened first; then: with curtain mode
on and the stack exactly one below the cap, save the outgoing page's data,
replace the top (future second-to-last) slot with the curtain page and open
the target; with the stack under the cap, open directly; at the cap, save
the outgoing page's data and replace the top page with the target. -/
def navigateToM (cfg : Config) (s : NavState) (url : String) :
    NavState × List NavOp :=
  let hist1 := historyOpen s.history url
  if cfg.enableCurtain && (s.phys.length == cfg.maxLevel - 1) then
    let hist2 := historySavePage hist1 (hist1.length - 2) (s.phys.getLastD "")
    let s1 : NavState := ⟨hist2, s.phys⟩
    let p1 := secretReplaceM s1 cfg.curtainPage false
    let p2 := secretOpenM p1.1 url false
    (p2.1, NavOp.savePage (hist1.length - 2) :: (p1.2 ++ p2.2))
  else if s.phys.length < cfg.maxLevel then
    let p1 := secretOpenM ⟨hist1, s.phys⟩ url false
    (p1.1, p1.2)
  else
    let hist2 := historySavePage hist1 (hist1.length - 2) (s.phys.getLastD "")
    let p1 := secretReplaceM ⟨hist2, s.phys⟩ url false
    (p1.1, NavOp.savePage (hist1.length - 2) :: p1.2)

theorem historySavePage_length (h : List Route) (idx : Nat) (snap : String) :
    (historySavePage h idx snap).length = h.length := by
  unfold historySavePage
  split <;> simp

theorem navigateToM_history_length (cfg : Config) (s : NavState) (url : String) :
    (navigateToM cfg s url).1.history.length = s.history.length + 1 := by
  unfold navigateToM
  split
  · simp [secretOpenM, secretReplaceM, historySavePage_length, historyOpen]
  · split <;> simp [secretOpenM, secretReplaceM, historySavePage_length, historyOpen]

/-- Initial Navigator state: `_history = new History({routes: [{url:''}]})`
and a physical stack holding the root page. -/
def navInit : NavState :=
  ⟨[Route.mk "" false none], [""]⟩

/-- Claim C5: curtain insertion on open. Every `navigateTo` appends exactly
one logical entry, so after any sequence of opens from the initial state
the logical history length is the number of opens plus one. When curtain
mode is on and the physical stack holds exactly `maxLevel - 1` pages, the
call saves the outgoing page's data (at the outgoing entry's index), then
replaces the top physical slot (the second-to-last slot of the final
stack) with the curtain page, then opens the real target, leaving exactly
`maxLevel` physical pages. -/
theorem curtain_insertion_on_open (cfg : Config) (s : NavState) (url : String) :
    ((navigateToM cfg s url).1.history.length = s.history.length + 1) ∧
    (∀ urls : List String,
      (List.foldl (fun st u => (navigateToM cfg st u).1) navInit urls).history.length
        = urls.length + 1) ∧
    (cfg.enableCurtain = true → s.phys.length = cfg.maxLevel - 1 → 1 ≤ s.phys.length →
      (navigateToM cfg s url).2
          = [NavOp.savePage (s.history.length - 1),
             NavOp.physReplace cfg.curtainPage false,
             NavOp.physOpen url false] ∧
      (navigateToM cfg s url).1.phys.length = cfg.maxLevel) := by
  refine ⟨navigateToM_history_length cfg s url, ?_, ?_⟩
  · intro urls
    have haux : ∀ (us : List String) (st : NavState),
        (List.foldl (fun st u => (navigateToM cfg st u).1) st us).history.length
          = st.history.length + us.length := by
      intro us
      induction us with
      | nil => intro st; simp
      | cons u us ih =>
        intro st
        simp only [List.foldl_cons, List.length_cons]
        rw [ih, navigateToM_history_length]
        omega
    rw [haux urls navInit]
    simp [navInit]
    omega
  · intro hc hp h1
    have hcap : 2 ≤ cfg.maxLevel := by omega
    have hcond : (cfg.enableCurtain && (s.phys.length == cfg.maxLevel - 1)) = true := by
      simp [hc, hp]
    constructor
    · simp [navigateToM, hcond, secretReplaceM, secretOpenM, historyOpen]
    · simp only [navigateToM, hcond, if_true, secretReplaceM, secretOpenM]
      simp [List.length_dropLast]
      omega

/-- Witness for claim C5: curtain mode with cap 10 and a physical stack of
9 pages; opening a tenth page saves the outgoing entry (index 8), swaps in
the curtain page, opens the target, and ends with 10 physical pages. -/
theorem curtain_insertion_on_open_witness :
    (navigateToM (Config.mk true "/pages/curtain/curtain" true none 10)
        ⟨List.replicate 9 (Route.mk "/pages/h" false none), List.replicate 9 "/pages/h"⟩
        "/pages/target").2
      = [NavOp.savePage 8, NavOp.physReplace "/pages/curtain/curtain" false,
         NavOp.physOpen "/pages/target" false] ∧
    (navigateToM (Config.mk true "/pages/curtain/curtain" true none 10)
        ⟨List.replicate 9 (Route.mk "/pages/h" false none), List.replicate 9 "/pages/h"⟩
        "/pages/target").1.phys.length = 10 := by
  have h := (curtain_insertion_on_open (Config.mk true "/pages/curtain/curtain" true none 10)
      ⟨List.replicate 9 (Route.mk "/pages/h" false none), List.replicate 9 "/pages/h"⟩
      "/pages/target").2.2 rfl (by decide) (by decide)
  simpa using h

/-- Whether a `pageRestoreHandler` invocation with context `tainted`
reports success (`res && res.succeeded` in `_doTaintedRestore`): false when
there is no handler, when the handler returns nothing, or when it returns
`{succeeded: false}`. -/
def restoreReports (cfg : Config) (r : Route) : Bool :=
  match cfg.pageRestoreHandler with
  | none => false
  | some h =>
    match h r "tainted" with
    | some res => res.succeeded
    | none => false

/-- Operations issued by `_doTaintedRestore` (Navigator.js lines 347-362):
call the handler (when configured) with context `tainted`; unless it
reports success, force-reload the route via a forced-refresh replace. -/
def taintedTrace (cfg : Config) (r : Route) : List NavOp :=
  (if cfg.pageRestoreHandler.isSome then [NavOp.restoreCall r.url "tainted"] else [])
    ++ (if restoreReports cfg r then [] else [NavOp.physReplace r.url true])

/-- `_doTaintedRestore` itself: state effect of the possible forced
replace, plus the operation trace. -/
def doTaintedRestoreM (cfg : Config) (s : NavState) (r : Route) :
    NavState × List NavOp :=
  (if restoreReports cfg r then s else ⟨s.history, s.phys.dropLast ++ [r.url]⟩,
   taintedTrace cfg r)

/-- Operations issued by `_doLostRestore` (Navigator.js lines 371-379):
call the handler (when configured) with context `unloaded`; no fallback. -/
def lostTrace (cfg : Config) (r : Route) : List NavOp :=
  if cfg.pageRestoreHandler.isSome then [NavOp.restoreCall r.url "unloaded"] else []

/-- `_doLostRestore`: no state effect, only the possible handler call. -/
def doLostRestoreM (cfg : Config) (s : NavState) (r : Route) :
    NavState × List NavOp :=
  (s, lostTrace cfg r)

/-- The logical length after popping (`Navigator._history.length` as read
in `_doBack` after `_history.back(opts)`). -/
def backLen (s : NavState) (delta : Nat) : Nat :=
  (historyBack s.history delta).1.length

/-- The back-navigation target (`targetRoute` in `_doBack`). -/
def backTarget (s : NavState) (delta : Nat) : Route :=
  (historyBack s.history delta).2

/-- `curLength` in `_doBack` (Navigator.js line 240): the observed physical
depth, minus 1 when the back is user-initiated (`sysBack`), because the
system back already removed one layer irrevocably. -/
def physDepth (s : NavState) (sysBack : Bool) : Nat :=
  s.phys.length - (if sysBack then 1 else 0)

/-- `targetCurtain` in `_doBack` (line 244): curtain mode is on and the
post-pop logical length sits exactly one below the cap. -/
def curtainHit (cfg : Config) (s : NavState) (delta : Nat) : Bool :=
  cfg.enableCurtain && (backLen s delta == cfg.maxLevel - 1)

/-- `targetTainted` in `_doBack` (line 245). -/
def taintedHit (cfg : Config) (s : NavState) (delta : Nat) : Bool :=
  cfg.enableTaintedRestore && (backTarget s delta).tainted

/-- `Navigator._doBack` (Navigator.js lines 238-270): pop the logical
history, compare the post-pop logical length `L` with the adjusted
physical depth `P`, then
* `L < P`: physically pop `P - L` layers, then handle curtain / tainted;
* `L = P`: code-initiated back or curtain top: forced-refresh replace plus
  lost-restore; else tainted: tainted-restore; else nothing;
* `L > P`: load the target in the top layer (open for a system back,
  replace for a code back) plus lost-restore. -/
def doBackM (cfg : Config) (s : NavState) (delta : Nat) (sysBack : Bool) :
    NavState × List NavOp :=
  let target := backTarget s delta
  let s1 : NavState := ⟨(historyBack s.history delta).1, s.phys⟩
  let curLength := physDepth s sysBack
  let tc := curtainHit cfg s delta
  let tt := taintedHit cfg s delta
  if backLen s delta < curLength then
    let s2 : NavState := ⟨s1.history, s1.phys.take (s1.phys.length - (curLength - backLen s delta))⟩
    let p :=
      if tc then
        let p1 := secretReplaceM s2 target.url true
        let p2 := doLostRestoreM cfg p1.1 target
        (p2.1, p1.2 ++ p2.2)
      else if tt then doTaintedRestoreM cfg s2 target
      else (s2, [])
    (p.1, NavOp.physBack (curLength - backLen s delta) :: p.2)
  else if backLen s delta == curLength then
    if !sysBack || tc then
      let p1 := secretReplaceM s1 target.url true
      let p2 := doLostRestoreM cfg p1.1 target
      (p2.1, p1.2 ++ p2.2)
    else if tt then doTaintedRestoreM cfg s1 target
    else (s1, [])
  else
    let p1 := if sysBack then secretOpenM s1 target.url true else secretReplaceM s1 target.url true
    let p2 := doLostRestoreM cfg p1.1 target
    (p2.1, p1.2 ++ p2.2)

/-- Uniform `{succeeded, errMsg}` result of the public operations. -/
structure NavResult where
  succeeded : Bool
  errMsg : String
deriving DecidableEq, Repr

/-- `Navigator.navigateBack` (Navigator.js lines 136-140): delegates to
`_doBack` with `sysBack: false` and returns `{succeeded: true, errMsg: 'ok'}`;
restore outcomes are never escalated to the caller. -/
def navigateBackM (cfg : Config) (s : NavState) (delta : Nat) :
    NavResult × NavState × List NavOp :=
  let p := doBackM cfg s delta false
  (NavResult.mk true "ok", p.1, p.2)

/-- Claim C6: back resolution in the equal-depth case
(`L = P`, with `P` the sysBack-adjusted physical depth). A code-initiated
back, or a curtain page on top, yields exactly a forced-refresh physical
replace of the top with the target followed by the lost-restore hook; else
a tainted target yields exactly the tainted-restore operations; otherwise
no operation is performed. -/
theorem back_equal_depth (cfg : Config) (s : NavState) (delta : Nat) (sysBack : Bool)
    (hL : backLen s delta = physDepth s sysBack) :
    ((sysBack = false ∨ curtainHit cfg s delta = true) →
      (doBackM cfg s delta sysBack).2
        = NavOp.physReplace (backTarget s delta).url true
            :: lostTrace cfg (backTarget s delta)) ∧
    (sysBack = true → curtainHit cfg s delta = false → taintedHit cfg s delta = true →
      (doBackM cfg s delta sysBack).2 = taintedTrace cfg (backTarget s delta)) ∧
    (sysBack = true → curtainHit cfg s delta = false → taintedHit cfg s delta = false →
      (doBackM cfg s delta sysBack).2 = []) := by
  refine ⟨?_, ?_, ?_⟩
  · intro hcase
    rcases hcase with hsys | htc
    · simp [doBackM, hL, hsys, secretReplaceM, doLostRestoreM]
    · simp [doBackM, hL, htc, secretReplaceM, doLostRestoreM]
  · intro hsys htc htt
    simp [doBackM, hL, hsys, htc, htt, doTaintedRestoreM]
  · intro hsys htc htt
    simp [doBackM, hL, hsys, htc, htt]

/-- Witness for claim C6: history of 3 entries with a tainted second entry,
physical stack of 3, system back of one layer (adjusted depth 2 = post-pop
logical length 2); the tainted-restore handler is configured and reports
failure, so the trace is the handler call followed by the forced reload. -/
theorem back_equal_depth_witness :
    (doBackM
        (Config.mk false "/pages/curtain/curtain" true
          (some fun _ _ => some (RestoreRes.mk false)) 10)
        ⟨[Route.mk "/a" false none, Route.mk "/b" true none, Route.mk "/c" false none],
         ["/a", "/b", "/c"]⟩
        1 true).2
      = [NavOp.restoreCall "/b" "tainted", NavOp.physReplace "/b" true] := by
  have h := (back_equal_depth
      (Config.mk false "/pages/curtain/curtain" true
        (some fun _ _ => some (RestoreRes.mk false)) 10)
      ⟨[Route.mk "/a" false none, Route.mk "/b" true none, Route.mk "/c" false none],
       ["/a", "/b", "/c"]⟩
      1 true (by rfl)).2.1 rfl (by rfl) (by rfl)
  rw [h]
  rfl

/-- Recognizer for physical pop operations, used to count them. -/
def isPhysBackOp : NavOp → Bool
  | NavOp.physBack _ => true
  | _ => false

theorem lostTrace_no_physBack (cfg : Config) (r : Route) :
    (lostTrace cfg r).countP isPhysBackOp = 0 := by
  unfold lostTrace
  split <;> simp [isPhysBackOp]

theorem taintedTrace_no_physBack (cfg : Config) (r : Route) :
    (taintedTrace cfg r).countP isPhysBackOp = 0 := by
  unfold taintedTrace
  split <;> split <;> simp [isPhysBackOp, lostTrace]

/-- Claim C7: back resolution in the deeper-physical case. When the
post-pop logical length `L` is below the adjusted physical depth `P`
(observed stack length, minus 1 exactly when the back is user-initiated),
the resolver first issues a single physical pop of exactly `P - L` layers,
followed only by the curtain replacement / restore handling; the whole
trace contains exactly one pop. -/
theorem back_deeper_physical (cfg : Config) (s : NavState) (delta : Nat) (sysBack : Bool)
    (hL : backLen s delta < physDepth s sysBack) :
    (doBackM cfg s delta sysBack).2
        = NavOp.physBack (physDepth s sysBack - backLen s delta)
            :: (if curtainHit cfg s delta then
                  NavOp.physReplace (backTarget s delta).url true
                    :: lostTrace cfg (backTarget s delta)
                else if taintedHit cfg s delta then taintedTrace cfg (backTarget s delta)
                else []) ∧
    ((doBackM cfg s delta sysBack).2.countP isPhysBackOp) = 1 := by
  have htrace : (doBackM cfg s delta sysBack).2
      = NavOp.physBack (physDepth s sysBack - backLen s delta)
          :: (if curtainHit cfg s delta then
                NavOp.physReplace (backTarget s delta).url true
                  :: lostTrace cfg (backTarget s delta)
              else if taintedHit cfg s delta then taintedTrace cfg (backTarget s delta)
              else []) := by
    rcases htc : curtainHit cfg s delta with _ | _
    · rcases htt : taintedHit cfg s delta with _ | _
      · simp [doBackM, hL, htc, htt]
      · simp [doBackM, hL, htc, htt, doTaintedRestoreM]
    · simp [doBackM, hL, htc, secretReplaceM, doLostRestoreM]
  refine ⟨htrace, ?_⟩
  rw [htrace]
  rcases htc : curtainHit cfg s delta with _ | _
  · rcases htt : taintedHit cfg s delta with _ | _
    · simp [isPhysBackOp]
    · simp [isPhysBackOp, taintedTrace_no_physBack]
  · simp [isPhysBackOp, lostTrace_no_physBack]

/-- Witness for claim C7: logical history popped to length 2 while the
physical stack holds 5 pages, code-initiated back (no depth adjustment):
one physical pop of 3 layers and nothing else, since neither the curtain
nor the tainted condition holds. -/
theorem back_deeper_physical_witness :
    (doBackM (Config.mk true "/pages/curtain/curtain" true none 10)
        ⟨[Route.mk "/a" false none, Route.mk "/b" false none, Route.mk "/c" false none,
          Route.mk "/d" false none],
         ["/a", "/b", "/c", "/d", "/e"]⟩
        2 false).2
      = [NavOp.physBack 3] := by
  have h := (back_deeper_physical (Config.mk true "/pages/curtain/curtain" true none 10)
      ⟨[Route.mk "/a" false none, Route.mk "/b" false none, Route.mk "/c" false none,
        Route.mk "/d" false none],
       ["/a", "/b", "/c", "/d", "/e"]⟩
      2 false (by decide)).1
  rw [h]
  rfl

/-- Claim C8: tainted-restore fallback. With a restore handler configured,
`_doTaintedRestore` first invokes it with context `tainted`; the route is
force-reloaded via a forced-refresh physical replace if and only if the
handler does not report `succeeded: true` (returning nothing counts as not
succeeding); and the restore outcome is never escalated to the caller of
back: `navigateBack` returns `{succeeded: true, errMsg: 'ok'}` regardless. -/
theorem tainted_restore_fallback (cfg : Config) (s : NavState) (r : Route)
    (h : Route → String → Option RestoreRes) (hh : cfg.pageRestoreHandler = some h) :
    (doTaintedRestoreM cfg s r).2 = taintedTrace cfg r ∧
    (taintedTrace cfg r).head? = some (NavOp.restoreCall r.url "tainted") ∧
    (NavOp.physReplace r.url true ∈ taintedTrace cfg r
      ↔ ¬ ∃ res : RestoreRes, h r "tainted" = some res ∧ res.succeeded = true) ∧
    (∀ (s2 : NavState) (delta : Nat),
      (navigateBackM cfg s2 delta).1 = NavResult.mk true "ok") := by
  refine ⟨rfl, ?_, ?_, fun s2 delta => rfl⟩
  · simp [taintedTrace, hh]
  · obtain ⟨ec, cp, et, ph, ml⟩ := cfg
    simp only at hh
    subst hh
    unfold taintedTrace restoreReports
    rcases hres : h r "tainted" with _ | res
    · simp [hres]
    · rcases hsucc : res.succeeded with _ | _ <;> simp [hres, hsucc]

/-- Witness for claim C8: a handler that returns `{succeeded: false}`; the
forced-refresh replace of the tainted route is issued after the handler
call, and `navigateBack` still reports success. -/
theorem tainted_restore_fallback_witness :
    (doTaintedRestoreM
        (Config.mk true "/pages/curtain/curtain" true
          (some fun _ _ => some (RestoreRes.mk false)) 10)
        ⟨[Route.mk "/a" false none], ["/a"]⟩
        (Route.mk "/b" true none)).2
      = [NavOp.restoreCall "/b" "tainted", NavOp.physReplace "/b" true] ∧
    (navigateBackM
        (Config.mk true "/pages/curtain/curtain" true
          (some fun _ _ => some (RestoreRes.mk false)) 10)
        ⟨[Route.mk "/a" false none], ["/a"]⟩ 1).1
      = NavResult.mk true "ok" := by
  have h := tainted_restore_fallback
      (Config.mk true "/pages/curtain/curtain" true
        (some fun _ _ => some (RestoreRes.mk false)) 10)
      ⟨[Route.mk "/a" false none], ["/a"]⟩
      (Route.mk "/b" true none)
      (fun _ _ => some (RestoreRes.mk false)) rfl
  exact ⟨by rw [h.1]; rfl, h.2.2.2 ⟨[Route.mk "/a" false none], ["/a"]⟩ 1⟩

/-- State relevant to `onPageUnload` (Navigator.js lines 212-221):
`_activeUnload`, the discard-mode lock of `_finishActiveUnload`
(`@noConcurrent`), the number of debounced flag-clears actually started,
and the back requests fed into the resolver as `(delta, sysBack)`. -/
structure UnloadState where
  activeUnload : Bool
  finishRunning : Bool
  scheduledClears : Nat
  backCalls : List (Nat × Bool)
deriving DecidableEq, Repr

/-- One page-teardown notification (`onPageUnload`): if `_activeUnload` is
set, call `_finishActiveUnload` — which, being discard-wrapped, only starts
a delayed clear when none is running — and do nothing else; otherwise treat
the teardown as a user back gesture: `_doBack({delta: 1}, {sysBack: true})`. -/
def onPageUnloadM (s : UnloadState) : UnloadState :=
  if s.activeUnload then
    if s.finishRunning then s
    else ⟨s.activeUnload, true, s.scheduledClears + 1, s.backCalls⟩
  else ⟨s.activeUnload, s.finishRunning, s.scheduledClears, s.backCalls ++ [(1, true)]⟩

/-- The delayed body of `_finishActiveUnload` completing: clears
`_activeUnload` and releases the discard lock. -/
def finishActiveUnloadDone (s : UnloadState) : UnloadState :=
  ⟨false, false, s.scheduledClears, s.backCalls⟩

/-- A burst of `n` consecutive teardown notifications. -/
def unloadBurst : Nat → UnloadState → UnloadState
  | 0, s => s
  | n + 1, s => unloadBurst n (onPageUnloadM s)

theorem unloadBurst_discarded (n : Nat) (s : UnloadState)
    (ha : s.activeUnload = true) (hf : s.finishRunning = true) :
    unloadBurst n s = s := by
  induction n with
  | zero => rfl
  | succ n ih => simp [unloadBurst, onPageUnloadM, ha, hf, ih]

/-- Claim C9: teardown routing. With the active-unload flag set (and no
clear already pending), a burst of `n + 1` teardown notifications schedules
exactly one delayed clear of the flag and feeds no back-navigation into the
resolver; with the flag clear, a notification feeds exactly
`back({delta: 1}, sysBack = true)` into the resolver and schedules
nothing. -/
theorem teardown_routing (s : UnloadState) (n : Nat) :
    (s.activeUnload = true → s.finishRunning = false →
      (unloadBurst (n + 1) s).scheduledClears = s.scheduledClears + 1 ∧
      (unloadBurst (n + 1) s).backCalls = s.backCalls) ∧
    (s.activeUnload = false →
      (onPageUnloadM s).backCalls = s.backCalls ++ [(1, true)] ∧
      (onPageUnloadM s).scheduledClears = s.scheduledClears) := by
  constructor
  · intro ha hf
    have h1 : onPageUnloadM s = ⟨s.activeUnload, true, s.scheduledClears + 1, s.backCalls⟩ := by
      simp [onPageUnloadM, ha, hf]
    have h2 : unloadBurst (n + 1) s = ⟨s.activeUnload, true, s.scheduledClears + 1, s.backCalls⟩ := by
      show unloadBurst n (onPageUnloadM s) = _
      rw [h1, unloadBurst_discarded n _ (by simpa using ha) rfl]
    simp [h2]
  · intro ha
    simp [onPageUnloadM, ha]

/-- Witness for claim C9: five teardown notifications during a reset
schedule one clear and no back; one teardown outside an active unload
feeds a single `(delta 1, sysBack)` back. -/
theorem teardown_routing_witness :
    (unloadBurst 5 ⟨true, false, 0, []⟩).scheduledClears = 1 ∧
    (unloadBurst 5 ⟨true, false, 0, []⟩).backCalls = [] ∧
    (onPageUnloadM ⟨false, false, 0, []⟩).backCalls = [(1, true)] := by
  have h1 := (teardown_routing ⟨true, false, 0, []⟩ 4).1 rfl rfl
  have h2 := (teardown_routing ⟨false, false, 0, []⟩ 0).2 rfl
  exact ⟨h1.1, h1.2, h2.1⟩

/-- Effect of a `secretOpen` outcome on the physical stack, with the error
(if any) that `navigateTo` would propagate to its caller. -/
def applyOpenOutcome (s : NavState) (url : String) :
    OpenOutcome → NavState × Option OpenRes
  | OpenOutcome.opened => (⟨s.history, s.phys ++ [url]⟩, none)
  | OpenOutcome.replaced => (⟨s.history, s.phys.dropLast ++ [url]⟩, none)
  | OpenOutcome.threw r => (s, some r)
  | OpenOutcome.starved => (s, some (OpenRes.mk false "starved"))

/-- `Navigator.navigateTo` driven by an oracle of platform open responses:
the logical history is opened (and in the save-branches snapshotted)
before the physical part runs; a failure thrown by `_secretOpen` is
propagated while the already-performed history mutation stays in place. -/
def navigateToO (cfg : Config) (s : NavState) (url : String) (opens : List OpenRes) :
    NavState × Option OpenRes :=
  let hist1 := historyOpen s.history url
  if cfg.enableCurtain && (s.phys.length == cfg.maxLevel - 1) then
    let hist2 := historySavePage hist1 (hist1.length - 2) (s.phys.getLastD "")
    let s1 : NavState := ⟨hist2, s.phys.dropLast ++ [cfg.curtainPage]⟩
    let oc := secretOpen cfg.maxLevel s1.phys.length NAV_BUSY_REMAIN RETRY_TIMEOUT opens
    applyOpenOutcome s1 url oc.1
  else if s.phys.length < cfg.maxLevel then
    let oc := secretOpen cfg.maxLevel s.phys.length NAV_BUSY_REMAIN RETRY_TIMEOUT opens
    applyOpenOutcome ⟨hist1, s.phys⟩ url oc.1
  else
    let hist2 := historySavePage hist1 (hist1.length - 2) (s.phys.getLastD "")
    (⟨hist2, s.phys.dropLast ++ [url]⟩, none)

/-- `Navigator.redirectTo` (Navigator.js lines 115-122) driven by the
result of the physical replace: the logical history is replaced first;
a physical failure is propagated while the mutation stays in place. -/
def redirectToO (s : NavState) (url : String) (replaceOK : Bool) :
    NavState × Option String :=
  let s1 : NavState := ⟨historyReplace s.history url, s.phys⟩
  if replaceOK then (⟨s1.history, s1.phys.dropLast ++ [url]⟩, none)
  else (s1, some "redirectTo:fail")

theorem historySavePage_map_url (h : List Route) (idx : Nat) (snap : String) :
    (historySavePage h idx snap).map Route.url = h.map Route.url := by
  unfold historySavePage
  split
  · rename_i hidx
    induction h generalizing idx with
    | nil => simp at hidx
    | cons a t ih =>
      cases idx with
      | zero => simp
      | succ n =>
        simp only [List.set_cons_succ, List.map_cons, List.cons.injEq, true_and]
        exact ih n (by simpa using hidx)
  · rfl

theorem applyOpenOutcome_history (s : NavState) (url : String) (oc : OpenOutcome) :
    (applyOpenOutcome s url oc).1.history = s.history := by
  cases oc <;> rfl

/-- Claim C10: the logical history is mutated before the physical attempt
and kept on physical failure. For every oracle of platform responses,
`navigateTo` leaves the logical history equal (in urls, hence in length) to
the pre-call history with the attempted target appended — also when it
propagates a failure; a non-limit failure on the first attempt is such a
propagated case. Likewise `redirectTo` leaves the history equal to the
pre-call history with the top overwritten, also when the physical replace
fails, and that failing replace does propagate an error. -/
theorem history_mutation_survives_failure (cfg : Config) (s : NavState) (url : String) :
    (∀ opens : List OpenRes,
      (navigateToO cfg s url opens).1.history.map Route.url
        = s.history.map Route.url ++ [url]) ∧
    (∀ replaceOK : Bool,
      (redirectToO s url replaceOK).1.history = historyReplace s.history url) ∧
    (∀ r : OpenRes,
      r.succeeded = false → limitExceedMsg r.errMsg = false →
      cfg.enableCurtain = false → s.phys.length < cfg.maxLevel →
      (navigateToO cfg s url [r]).2 = some r) ∧
    ((redirectToO s url false).2.isSome = true) := by
  refine ⟨?_, ?_, ?_, rfl⟩
  · intro opens
    unfold navigateToO
    split
    · rw [applyOpenOutcome_history]
      simp [historySavePage_map_url, historyOpen]
    · split
      · rw [applyOpenOutcome_history]
        simp [historyOpen]
      · simp [historySavePage_map_url, historyOpen]
  · intro replaceOK
    unfold redirectToO
    split <;> rfl
  · intro r hs hm hc hlt
    have hcond : (cfg.enableCurtain && (s.phys.length == cfg.maxLevel - 1)) = false := by
      simp [hc]
    simp [navigateToO, hcond, hlt, secretOpen, hs, hm, applyOpenOutcome]

/-- Witness for claim C10: a bad-url failure on the first open attempt is
propagated, and the history still ends with the attempted target. -/
theorem history_mutation_survives_failure_witness :
    (navigateToO (Config.mk false "/pages/curtain/curtain" true none 10)
        ⟨[Route.mk "/a" false none], ["/a"]⟩ "/bad"
        [OpenRes.mk false "navigateTo:fail url not in app.json"]).2
      = some (OpenRes.mk false "navigateTo:fail url not in app.json") ∧
    (navigateToO (Config.mk false "/pages/curtain/curtain" true none 10)
        ⟨[Route.mk "/a" false none], ["/a"]⟩ "/bad"
        [OpenRes.mk false "navigateTo:fail url not in app.json"]).1.history.map Route.url
      = ["/a", "/bad"] := by
  have h := history_mutation_survives_failure
      (Config.mk false "/pages/curtain/curtain" true none 10)
      ⟨[Route.mk "/a" false none], ["/a"]⟩ "/bad"
  exact ⟨h.2.2.1 (OpenRes.mk false "navigateTo:fail url not in app.json") rfl (by decide)
      rfl (by decide),
    by rw [h.1 [OpenRes.mk false "navigateTo:fail url not in app.json"]]; rfl⟩

end Nav
